import Mathlib

/-!
Shallow embedding of the frostbyte backend mission pipeline
(`backend/app/langgraph_workflow.py`) and XP/level mechanics
(`backend/app/game_mechanics.py`), together with theorems checking the
natural-language specification of the repository against the embedded code.

Numeric conventions: Python ints are `Int` (or `Nat` where the source value
is a count), Python floats are modelled as exact rationals `ℚ` (every float
constant in the source is a short decimal literal), Python `round(x, 2)` is
modelled by `pyRound2` (round-half-to-even at two decimal places, as
the Python built-in `round`), and Python `int(x)` by `pyTrunc` (truncation toward
zero).
-/

/-- Python `int(x)` applied to a float: truncation toward zero. -/
def pyTrunc (x : ℚ) : Int := if 0 ≤ x then ⌊x⌋ else ⌈x⌉

/-- Python `round(x, 2)`: round to two decimal places, ties to even
(round half to even). -/
def pyRound2 (x : ℚ) : ℚ :=
  ((if x * 100 - ⌊x * 100⌋ < 1 / 2 then ⌊x * 100⌋
    else if 1 / 2 < x * 100 - ⌊x * 100⌋ then ⌊x * 100⌋ + 1
    else if ⌊x * 100⌋ % 2 = 0 then ⌊x * 100⌋
    else ⌊x * 100⌋ + 1 : Int) : ℚ) / 100

/-- The `while` loop of `calculate_level` from `game_mechanics.py` lines 4-11:
`level = 1; xp_needed = 0; while xp_needed <= total_xp: level += 1;
xp_needed += level * 100`, returning `level - 1` on exit. -/
def calcLevelLoop (totalXp : Int) (level : Nat) (xpNeeded : Int) : Nat :=
  if xpNeeded ≤ totalXp then
    calcLevelLoop totalXp (level + 1) (xpNeeded + ((level : Int) + 1) * 100)
  else
    level - 1
termination_by (totalXp + 1 - xpNeeded).toNat
decreasing_by
  have h100 : (100 : Int) ≤ ((level : Int) + 1) * 100 := by
    nlinarith [Int.ofNat_nonneg level]
  omega

/-- `calculate_level` from `game_mechanics.py`. -/
def calculate_level (totalXp : Int) : Nat :=
  calcLevelLoop totalXp 1 0

/-- `get_level_threshold` from `game_mechanics.py`:
`total = 0; for i in range(2, level + 1): total += i * 100`. -/
def get_level_threshold (level : Nat) : Int :=
  (List.range' 2 (level + 1 - 2)).foldl (fun (total : Int) (i : Nat) => total + (i : Int) * 100) 0

/-- `calculate_xp` from `game_mechanics.py` lines 40-55: base 10 XP plus
`min(int(co2_saved_kg * 5), 40)` plus a category bonus from the
`category_bonuses` dict (`.get(category, 0)`), the total capped at 50. -/
def calculate_xp (co2SavedKg : ℚ) (category : String) : Int :=
  let baseXp : Int := 10
  let co2Xp : Int := min (pyTrunc (co2SavedKg * 5)) 40
  let bonus : Int :=
    if category = "transportation" then 10
    else if category = "food" then 5
    else if category = "energy" then 5
    else if category = "shopping" then 5
    else 0
  min (baseXp + co2Xp + bonus) 50

/-- The Python substring test `pattern in s`. -/
def containsSub (pattern s : String) : Bool :=
  decide (List.IsInfix pattern.toList s.toList)

/-- The Python `str` rendering of a list of strings: brackets, comma
separation, each element wrapped in single quotes; the classifier applies
it to `current_habits` before the sentinel substring test. -/
def pyStrList (l : List String) : String :=
  "[" ++ String.intercalate ", " (l.map (fun s => "\x27" ++ s ++ "\x27")) ++ "]"

/-- Python truthiness of an optional string survey field
(`if survey.get(key):`): false for an absent field and for `""`. -/
def truthy : Option String → Bool
  | none => false
  | some s => s ≠ ""

/-- `SurveyResponse`: the survey fields of `SurveyRequest`
(`routers/survey.py` lines 17-34) read by the pipeline; every field is
optional (`None` when absent) and `commute_distance` is an `int` with no
nonnegativity constraint. -/
structure Survey where
  commute_method : Option String := none
  commute_distance : Option Int := none
  flight_frequency : Option String := none
  diet_type : Option String := none
  eating_out_frequency : Option String := none
  cooking_habits : Option String := none
  shopping_habits : Option (List String) := none
  clothing_frequency : Option String := none
  shopping_location : Option String := none
  purchase_behavior : Option String := none
  housing_type : Option String := none
  energy_control : Option String := none
  current_habits : Option (List String) := none
  carbon_awareness : Option String := none
  time_commitment : Option String := none
  motivation : Option String := none
  achievable_changes : Option String := none
  deriving DecidableEq

/-- A mission record as produced by the generator or the static fallback
(the dict fields used in `langgraph_workflow.py` lines 466-476, 541-582). -/
structure Mission where
  title : String
  description : String
  category : String
  co2_saved_kg : ℚ
  money_saved : ℚ
  xp_reward : Int
  tips : List String
  mission_type : String
  deriving DecidableEq

/-- `WorkflowState` from `langgraph_workflow.py` lines 23-31. -/
structure WorkflowState where
  user_id : String
  survey_data : Survey
  baseline_co2_kg : ℚ
  profile_type : String
  opportunity_areas : List String
  missions : List Mission
  error : Option String
  deriving DecidableEq

/-- `valid_mission_types` from `generate_missions` line 512. -/
def validMissionTypes : List String := ["one_time", "repeatable", "streak"]

/-- `valid_categories` from `generate_missions` line 513. -/
def validCategories : List String := ["transportation", "food", "energy", "shopping"]

/-- `_estimate_transport_co2`: kg-per-mile rate table (`.get` default 0.25)
times `distance_miles * 2 * 20`. -/
def _estimate_transport_co2 (commuteMethod : String) (distanceMiles : Int) : ℚ :=
  let rate : ℚ :=
    if commuteMethod = "I drive alone" then 0.404
    else if commuteMethod = "I carpool with others" then 0.202
    else if commuteMethod = "Public transportation (bus, train, subway)" then 0.14
    else if commuteMethod = "I bike" then 0
    else if commuteMethod = "I walk" then 0
    else if commuteMethod = "I work/study from home" then 0
    else if commuteMethod = "Mix of multiple methods" then 0.25
    else 0.25
  rate * (distanceMiles : ℚ) * 2 * 20

/-- `_estimate_flight_co2`: fixed per-bucket table (`.get` default 0). -/
def _estimate_flight_co2 (flightFrequency : String) : ℚ :=
  if flightFrequency = "Never or almost never" then 0
  else if flightFrequency = "1-2 times" then 400
  else if flightFrequency = "3-5 times" then 1000
  else if flightFrequency = "6-10 times" then 2000
  else if flightFrequency = "More than 10 times" then 3000
  else 0

/-- The `diet_map` lookup inside `_estimate_co2_footprint` (`.get` default 150). -/
def dietCo2Lookup (dietType : String) : ℚ :=
  if dietType = "I eat meat with most meals" then 250
  else if dietType = "I eat meat several times a week" then 180
  else if dietType = "I eat meat occasionally (1-2x/week)" then 120
  else if dietType = "Pescatarian (fish but no meat)" then 90
  else if dietType = "Vegetarian" then 60
  else if dietType = "Vegan" then 40
  else 150

/-- `_estimate_co2_footprint`: the all-fallback estimation path, summing the
three sub-estimates over the truthy survey fields and rounding to 2 decimal
places. -/
def _estimate_co2_footprint (survey : Survey) : ℚ :=
  let total : ℚ :=
    (if truthy survey.commute_method then
      _estimate_transport_co2 (survey.commute_method.getD "")
        (survey.commute_distance.getD 0)
    else 0) +
    (if truthy survey.flight_frequency then
      _estimate_flight_co2 (survey.flight_frequency.getD "")
    else 0) +
    (if truthy survey.diet_type then dietCo2Lookup (survey.diet_type.getD "")
    else 0)
  pyRound2 total

/-- The `except` branch of `calculate_co2_footprint`: when the external
Climatiq call layer fails (the scenario the claims quantify over), the stage
writes `_estimate_co2_footprint(survey)` into `baseline_co2_kg`. -/
def calculate_co2_footprint_fallback (state : WorkflowState) : WorkflowState :=
  { state with baseline_co2_kg := _estimate_co2_footprint state.survey_data }

/-- The three accumulators `(beginner_score, intermediate_score,
expert_score)` of `classify_user_profile` (lines 294-328), one component
triple per scored signal. -/
def profileScores (survey : Survey) : Nat × Nat × Nat :=
  let timeCommitment := survey.time_commitment.getD ""
  let carbonAwareness := survey.carbon_awareness.getD ""
  let achievableChanges := survey.achievable_changes.getD ""
  let currentHabits := survey.current_habits.getD []
  let habitCount := currentHabits.length
  let p1 : Nat × Nat × Nat :=
    if containsSub "5-10 minutes" timeCommitment then (3, 0, 0)
    else if containsSub "15-30 minutes" timeCommitment ∨
        containsSub "30-60 minutes" timeCommitment then (0, 3, 0)
    else if containsSub "1+ hours" timeCommitment then (0, 0, 3)
    else (0, 0, 0)
  let p2 : Nat × Nat × Nat :=
    if containsSub "no idea" carbonAwareness then (2, 0, 0)
    else if containsSub "rough sense" carbonAwareness then (0, 2, 0)
    else if containsSub "calculated it" carbonAwareness ∨
        containsSub "actively track" carbonAwareness then (0, 0, 2)
    else (0, 0, 0)
  let p3 : Nat × Nat × Nat :=
    if habitCount = 0 ∨
        (habitCount = 1 ∧ containsSub "None of these yet" (pyStrList currentHabits)) then
      (2, 0, 0)
    else if habitCount ≤ 3 then (0, 2, 0)
    else (0, 0, 2)
  let p4 : Nat × Nat × Nat :=
    if containsSub "Tiny habits" achievableChanges then (1, 0, 0)
    else if containsSub "Small weekly" achievableChanges ∨
        containsSub "Monthly commitments" achievableChanges then (0, 1, 0)
    else if containsSub "Bigger lifestyle" achievableChanges ∨
        containsSub "ready for all" achievableChanges then (0, 0, 1)
    else (0, 0, 0)
  (p1.1 + p2.1 + p3.1 + p4.1,
   p1.2.1 + p2.2.1 + p3.2.1 + p4.2.1,
   p1.2.2 + p2.2.2 + p3.2.2 + p4.2.2)

/-- The final classification of `classify_user_profile` (lines 330-337):
`max_score = max(b, i, e)`, EXPERT if it equals the expert score, else
INTERMEDIATE if it equals the intermediate score, else BEGINNER. -/
def classifyScores (b i e : Nat) : String :=
  let maxScore := max b (max i e)
  if maxScore = e then "EXPERT"
  else if maxScore = i then "INTERMEDIATE"
  else "BEGINNER"

/-- `classify_user_profile` stage. -/
def classify_user_profile (state : WorkflowState) : WorkflowState :=
  let scores := profileScores state.survey_data
  { state with profile_type := classifyScores scores.1 scores.2.1 scores.2.2 }

/-- Transportation impact score of `identify_opportunities` (lines 353-360). -/
def transportScore (survey : Survey) : Nat :=
  (if survey.commute_method = some "I drive alone" ∨
      survey.commute_method = some "Mix of multiple methods" then 3 else 0) +
  (if 10 < survey.commute_distance.getD 0 then 2 else 0) +
  (if containsSub "More than" (survey.flight_frequency.getD "") then 2 else 0)

/-- Food impact score (lines 362-370). -/
def foodScore (survey : Survey) : Nat :=
  (if containsSub "meat with most meals" (survey.diet_type.getD "") then 3 else 0) +
  (if containsSub "Daily" (survey.eating_out_frequency.getD "") ∨
      containsSub "4-6 times" (survey.eating_out_frequency.getD "") then 2 else 0) +
  (if containsSub "don\x27t cook" (survey.cooking_habits.getD "") ∨
      containsSub "Rarely" (survey.cooking_habits.getD "") then 1 else 0)

/-- Shopping impact score (lines 372-380). -/
def shoppingScore (survey : Survey) : Nat :=
  (if containsSub "Monthly" (survey.clothing_frequency.getD "") then 2 else 0) +
  (if survey.purchase_behavior = some "Buy it new immediately" then 2 else 0) +
  (if containsSub "Mostly online" (survey.shopping_location.getD "") then 1 else 0)

/-- Energy impact score (lines 382-388). -/
def energyScore (survey : Survey) : Nat :=
  (if containsSub "Full control" (survey.energy_control.getD "") ∨
      containsSub "Some control" (survey.energy_control.getD "") then 3 else 0) +
  (if containsSub "House" (survey.housing_type.getD "") then 2 else 0)

/-- Selection step of `identify_opportunities` (lines 390-396) on the four
domain scores. `sorted(impact_scores.items(), key=lambda x: x[1],
reverse=True)` is a stable descending sort in Python, modelled by
`List.insertionSort` with the total preorder `b.2 ≤ a.2` (which places an
earlier element before any later element of equal score, as Python does);
the dict insertion order is transportation, food, shopping, energy. -/
def oppFromScores (t f s e : Nat) : List String :=
  let impactScores : List (String × Nat) :=
    [("transportation", t), ("food", f), ("shopping", s), ("energy", e)]
  let sortedAreas := List.insertionSort (fun a b => b.2 ≤ a.2) impactScores
  let top := ((sortedAreas.take 3).filter (fun p => 0 < p.2)).map Prod.fst
  if top = [] then ["transportation", "food", "energy"] else top

/-- `identify_opportunities` stage. -/
def identify_opportunities (state : WorkflowState) : WorkflowState :=
  { state with
    opportunity_areas :=
      oppFromScores (transportScore state.survey_data) (foodScore state.survey_data)
        (shoppingScore state.survey_data) (energyScore state.survey_data) }

/-- Outcome of the generation-service call and response parsing in
`generate_missions` (lines 490-509), abstracting the llm invocation and
`json.loads`: `parseFail msg` is any exception raised up to and including
parsing (llm error or JSON parse failure, `msg` the exception text),
`notAList` a payload that parses to a non-list value, and `missionList ms`
a successfully parsed list of mission records. -/
inductive GenResponse where
  | parseFail (msg : String)
  | notAList
  | missionList (ms : List Mission)
  deriving DecidableEq

/-- `_generate_fallback_missions` (lines 538-583); the `state` argument is
unused by the source as well. -/
def _generate_fallback_missions (_state : WorkflowState) : List Mission :=
  [{ title := "Use a reusable water bottle today",
     description := "Skip the disposable plastic bottles and bring your own reusable water bottle. This simple switch saves plastic waste and money.",
     category := "shopping",
     co2_saved_kg := 0.5,
     money_saved := 2.0,
     xp_reward := 10,
     tips := ["Keep your bottle in your bag",
              "Add flavor with lemon or cucumber",
              "Clean it daily for freshness"],
     mission_type := "one_time" },
   { title := "Unplug devices before bed tonight",
     description := "Before you go to sleep, unplug phone chargers, laptop chargers, and other devices that draw phantom power when not in use.",
     category := "energy",
     co2_saved_kg := 1.2,
     money_saved := 1.5,
     xp_reward := 15,
     tips := ["Use a power strip for easy unplugging",
              "Make it part of your bedtime routine",
              "Focus on bedroom and office first"],
     mission_type := "repeatable" },
   { title := "Try one meatless meal this week",
     description := "Choose one day this week and opt for a vegetarian or plant-based meal. Explore new flavors while reducing your carbon footprint.",
     category := "food",
     co2_saved_kg := 2.3,
     money_saved := 5.0,
     xp_reward := 20,
     tips := ["Try a veggie burger or falafel",
              "Make it Meatless Monday",
              "Ask friends for restaurant recommendations"],
     mission_type := "one_time" }]

/-- Body of the per-mission validation loop of `generate_missions`
(lines 515-524). `Except.error` models the `IndexError` raised on line 523
when `opportunity_areas` is empty and the category is invalid: the log
f-string there indexes element 0 of the empty opportunity-area list. It
fires before the else-energy conditional on line 524 can apply, and is
caught by the except handler of the stage. -/
def validateMission (areas : List String) (m : Mission) : Except String Mission :=
  let m1 :=
    if m.mission_type ∈ validMissionTypes then m
    else { m with mission_type := "one_time" }
  if m1.category ∈ validCategories then Except.ok m1
  else
    match areas with
    | [] => Except.error "list index out of range"
    | a :: _ => Except.ok { m1 with category := a }

/-- The `for mission in missions:` validation loop of `generate_missions`
(lines 515-524): repairs each mission in order, propagating the first
exception (see `validateMission`). -/
def validateMissions (areas : List String) : List Mission → Except String (List Mission)
  | [] => Except.ok []
  | m :: rest =>
    match validateMission areas m with
    | .error err => Except.error err
    | .ok m1 =>
      match validateMissions areas rest with
      | .error err => Except.error err
      | .ok rest1 => Except.ok (m1 :: rest1)

/-- `generate_missions` stage (lines 484-535) after the llm call and JSON
parse have been abstracted into `response`: a parse failure or non-list
payload raises, a list of fewer than 8 missions raises
`ValueError("Invalid missions format or too few missions")`, and any raise
is caught by the `except` handler, which records `str(e)` in
`state["error"]` and substitutes `_generate_fallback_missions`; otherwise
every mission is validated/repaired in place, `state["missions"]` is set to
the repaired list and `state["error"]` to `None`. -/
def generate_missions (state : WorkflowState) (response : GenResponse) : WorkflowState :=
  match response with
  | .parseFail msg =>
    { state with error := some msg, missions := _generate_fallback_missions state }
  | .notAList =>
    { state with error := some "Invalid missions format or too few missions",
                 missions := _generate_fallback_missions state }
  | .missionList ms =>
    if ms.length < 8 then
      { state with error := some "Invalid missions format or too few missions",
                   missions := _generate_fallback_missions state }
    else
      match validateMissions state.opportunity_areas ms with
      | .ok validated => { state with missions := validated, error := none }
      | .error msg =>
        { state with error := some msg, missions := _generate_fallback_missions state }

/-- Fresh `WorkflowState` for one pipeline run. -/
def initialState (userId : String) (survey : Survey) : WorkflowState :=
  { user_id := userId, survey_data := survey, baseline_co2_kg := 0,
    profile_type := "", opportunity_areas := [], missions := [], error := none }

/-- The compiled workflow of `create_mission_workflow` (calculate_co2 →
classify_profile → identify_opportunities → generate_missions) in the
scenario the claims quantify over: the estimation service failing (so
`calculate_co2_footprint` takes its fallback branch) and the generation
call and parse outcome given by `response`. -/
def run_pipeline_fallback (state : WorkflowState) (response : GenResponse) : WorkflowState :=
  generate_missions
    (identify_opportunities (classify_user_profile (calculate_co2_footprint_fallback state)))
    response

/-- The Mission schema of spec section 3, restricted to its
machine-checkable clauses as named by the claims: category and missionType
from their enumerations, `co2SavedKg ≥ 0`, `xpReward` an integer in 0-100,
and 2-3 tips. -/
def missionSchemaOk (m : Mission) : Prop :=
  m.category ∈ validCategories ∧ m.mission_type ∈ validMissionTypes ∧
  0 ≤ m.co2_saved_kg ∧ 0 ≤ m.xp_reward ∧ m.xp_reward ≤ 100 ∧
  (m.tips.length = 2 ∨ m.tips.length = 3)

instance (m : Mission) : Decidable (missionSchemaOk m) := by
  unfold missionSchemaOk; infer_instance

/-- Position of a domain tag in the fixed ranker insertion order
(transportation, food, shopping, energy); used only to state the stability
of the ranking. -/
def domIdx (d : String) : Nat :=
  if d = "transportation" then 0
  else if d = "food" then 1
  else if d = "shopping" then 2
  else if d = "energy" then 3
  else 4

/-- The four domain scores as a function of the tag name. -/
def mkScore (t f s e : Nat) (d : String) : Nat :=
  if d = "transportation" then t
  else if d = "food" then f
  else if d = "shopping" then s
  else if d = "energy" then e
  else 0

/-- Domain score of a tag for a given survey. -/
def scoreOfTag (survey : Survey) : String → Nat :=
  mkScore (transportScore survey) (foodScore survey) (shoppingScore survey)
    (energyScore survey)

/-- The ranker tag universe in its fixed insertion order. -/
def rankerDomains : List String := ["transportation", "food", "shopping", "energy"]

/-- `a` is ranked strictly before `b`: higher score, or equal score and
earlier in the fixed insertion order. -/
def rankBeats (sc : String → Nat) (a b : String) : Bool :=
  decide (sc b < sc a) || (decide (sc a = sc b) && decide (domIdx a < domIdx b))

/-- Full specification of the ranker selection on one score quadruple:
the result has 1-3 entries, no duplicates, only known tags, is ordered by
descending score with ties in insertion order, is the fixed default exactly
when all scores are zero, and otherwise contains precisely the
positive-score tags beaten by at most two others. -/
def rankerOk (t f s e : Nat) : Prop :=
  let r := oppFromScores t f s e
  let sc := mkScore t f s e
  (1 ≤ r.length ∧ r.length ≤ 3) ∧
  r.Nodup ∧
  (∀ x ∈ r, x ∈ rankerDomains) ∧
  r.Pairwise (fun a b => sc b < sc a ∨ (sc a = sc b ∧ domIdx a < domIdx b)) ∧
  ((t = 0 ∧ f = 0 ∧ s = 0 ∧ e = 0) → r = ["transportation", "food", "energy"]) ∧
  (¬(t = 0 ∧ f = 0 ∧ s = 0 ∧ e = 0) →
    ∀ d ∈ rankerDomains,
      (d ∈ r ↔ 0 < sc d ∧ (rankerDomains.filter (fun y => rankBeats sc y d)).length ≤ 2))

instance (t f s e : Nat) : Decidable (rankerOk t f s e) := by
  unfold rankerOk; infer_instance

/-- A survey with every field absent. -/
def surveyBlank : Survey := {}

/-- The end-to-end scenario survey of spec section 8. -/
def surveyC6 : Survey :=
  { commute_method := some "I drive alone", commute_distance := some 15,
    diet_type := some "I eat meat with most meals",
    flight_frequency := some "Never or almost never" }

/-- A survey reporting a negative commute distance (accepted by
`SurveyRequest`, whose `commute_distance: Optional[int]` carries no
nonnegativity constraint). -/
def surveyNegDistance : Survey :=
  { commute_method := some "I drive alone", commute_distance := some (-1) }

/-- A generated mission that already satisfies the full Mission schema. -/
def okMission : Mission :=
  { title := "Combine two errands into one trip",
    description := "Plan ahead and combine two errands into a single trip.",
    category := "food", co2_saved_kg := 1, money_saved := 0, xp_reward := 10,
    tips := ["Keep a shared list", "Batch trips on one day"],
    mission_type := "one_time" }

/-- A parsed mission whose `xp_reward` is far outside 0-100 but whose
`category` and `mission_type` are valid, so the repair loop keeps it
unchanged. -/
def badXpMission : Mission := { okMission with title := "overshoot", xp_reward := 500 }

/-- A parsed mission with the invalid category `travel`. -/
def travelMission : Mission := { okMission with category := "travel" }

/-- A parsed 8-mission list containing `badXpMission`. -/
def missionsWithBadXp : List Mission := badXpMission :: List.replicate 7 okMission

/-- A parsed 8-mission list containing `travelMission`. -/
def missionsWithTravel : List Mission := travelMission :: List.replicate 7 okMission

/-- A populated pipeline state whose opportunity areas are the valid tags a
real run produces. -/
def stateWithAreas : WorkflowState :=
  { initialState "user-1" surveyBlank with opportunity_areas := ["energy"] }

/-- A pipeline state with empty opportunity areas (the corner the repair
logging line of the repair loop cannot handle). -/
def stateNoAreas : WorkflowState :=
  { initialState "user-1" surveyBlank with opportunity_areas := [] }

theorem get_level_threshold_succ (n : Nat) (h : 1 ≤ n) :
    get_level_threshold (n + 1) = get_level_threshold n + ((n : Int) + 1) * 100 := by
  unfold get_level_threshold
  have h1 : n + 1 + 1 - 2 = (n + 1 - 2) + 1 := by omega
  rw [h1, List.range'_concat, List.foldl_append]
  have h2 : 2 + 1 * (n + 1 - 2) = n + 1 := by omega
  simp [h2]
  omega

theorem get_level_threshold_le_succ (n : Nat) :
    get_level_threshold n ≤ get_level_threshold (n + 1) := by
  rcases Nat.eq_zero_or_pos n with h | h
  · subst h; norm_num [get_level_threshold]
  · rw [get_level_threshold_succ n h]
    have : (0 : Int) ≤ ((n : Int) + 1) * 100 := by positivity
    omega

theorem get_level_threshold_mono {m n : Nat} (h : m ≤ n) :
    get_level_threshold m ≤ get_level_threshold n := by
  induction n with
  | zero => simp_all
  | succ k ih =>
    rcases Nat.lt_or_ge m (k + 1) with h2 | h2
    · exact le_trans (ih (by omega)) (get_level_threshold_le_succ k)
    · have : m = k + 1 := by omega
      subst this; rfl

theorem get_level_threshold_nonneg (n : Nat) : 0 ≤ get_level_threshold n := by
  have := get_level_threshold_mono (Nat.zero_le n)
  simpa [get_level_threshold] using this

theorem get_level_threshold_lb (n : Nat) : (100 : Int) * n ≤ get_level_threshold (n + 1) := by
  induction n with
  | zero => norm_num [show get_level_threshold 1 = 0 from rfl]
  | succ k ih =>
    rw [get_level_threshold_succ (k + 1) (by omega)]
    push_cast
    nlinarith

theorem calcLevelLoop_charac (xp : Int) :
    ∀ (k level : Nat), 1 ≤ level → get_level_threshold level ≤ xp →
      xp < get_level_threshold (level + k) →
      level ≤ calcLevelLoop xp level (get_level_threshold level) ∧
      get_level_threshold (calcLevelLoop xp level (get_level_threshold level)) ≤ xp ∧
      xp < get_level_threshold (calcLevelLoop xp level (get_level_threshold level) + 1) := by
  intro k
  induction k with
  | zero =>
    intro level h1 h2 h3
    simp only [Nat.add_zero] at h3
    omega
  | succ k ih =>
    intro level h1 h2 h3
    rw [calcLevelLoop, if_pos h2, ← get_level_threshold_succ level h1]
    by_cases hc : get_level_threshold (level + 1) ≤ xp
    · have hrec := ih (level + 1) (by omega) hc (by
        have he : level + 1 + k = level + (k + 1) := by omega
        rw [he]; exact h3)
      exact ⟨by omega, hrec.2.1, hrec.2.2⟩
    · rw [calcLevelLoop, if_neg hc]
      have he : level + 1 - 1 = level := by omega
      rw [he]
      exact ⟨le_refl level, h2, by omega⟩

theorem calculate_level_charac (xp : Int) (hxp : 0 ≤ xp) :
    1 ≤ calculate_level xp ∧ get_level_threshold (calculate_level xp) ≤ xp ∧
    xp < get_level_threshold (calculate_level xp + 1) := by
  have hth1 : get_level_threshold 1 = 0 := rfl
  obtain ⟨k, hk⟩ : ∃ k : Nat, xp < get_level_threshold (1 + k) := by
    refine ⟨xp.toNat + 1, ?_⟩
    have hlb := get_level_threshold_lb (xp.toNat + 1)
    have he : 1 + (xp.toNat + 1) = (xp.toNat + 1) + 1 := by omega
    rw [he]
    have hx : xp < 100 * ((xp.toNat : Int) + 1) := by omega
    calc xp < 100 * ((xp.toNat : Int) + 1) := hx
      _ = 100 * ((xp.toNat + 1 : Nat) : Int) := by push_cast; ring
      _ ≤ get_level_threshold (xp.toNat + 1 + 1) := hlb
  have h := calcLevelLoop_charac xp k 1 (le_refl 1) (by rw [hth1]; exact hxp) hk
  exact h

theorem calculate_level_greatest (xp : Int) (hxp : 0 ≤ xp) (m : Nat)
    (hm : get_level_threshold m ≤ xp) : m ≤ calculate_level xp := by
  by_contra hcon
  push_neg at hcon
  have hc := calculate_level_charac xp hxp
  have := get_level_threshold_mono (show calculate_level xp + 1 ≤ m by omega)
  omega

theorem calculate_level_eq_of {xp : Int} {n : Nat} (_h1 : 1 ≤ n)
    (h2 : get_level_threshold n ≤ xp) (h3 : xp < get_level_threshold (n + 1)) :
    calculate_level xp = n := by
  have hxp : 0 ≤ xp := le_trans (get_level_threshold_nonneg n) h2
  have hc := calculate_level_charac xp hxp
  have hge := calculate_level_greatest xp hxp n h2
  by_contra hne
  have hlt : n < calculate_level xp := by omega
  have := get_level_threshold_mono (show n + 1 ≤ calculate_level xp by omega)
  omega

/-- C8 counterexample: the claim asserts `calculate_level(300) == 3`, but
with the level-3 threshold at 500 the code returns 2 at 300 XP, so the
claimed conjunction is false. -/
theorem c8_counterexample :
    ¬(get_level_threshold 2 = 200 ∧ get_level_threshold 3 = 500 ∧
      calculate_level 299 = 2 ∧ calculate_level 300 = 3) := by
  intro h
  have h300 : calculate_level 300 = 2 :=
    calculate_level_eq_of (by norm_num) (by decide) (by decide)
  omega

/-- C8 (amended): `get_level_threshold(2) = 200` and
`get_level_threshold(3) = 500` (the sum of `i*100` for i from 2 to the
level), and at the boundary XP values `calculate_level(299) = 2` and
`calculate_level(300) = 2`; the level-3 boundary is at 500 XP:
`calculate_level(499) = 2` and `calculate_level(500) = 3`. -/
theorem c8_level_thresholds :
    get_level_threshold 2 = 200 ∧ get_level_threshold 3 = 500 ∧
    calculate_level 299 = 2 ∧ calculate_level 300 = 2 ∧
    calculate_level 499 = 2 ∧ calculate_level 500 = 3 :=
  ⟨by decide, by decide,
    calculate_level_eq_of (by norm_num) (by decide) (by decide),
    calculate_level_eq_of (by norm_num) (by decide) (by decide),
    calculate_level_eq_of (by norm_num) (by decide) (by decide),
    calculate_level_eq_of (by norm_num) (by decide) (by decide)⟩

/-- C9: for every `total_xp ≥ 0`, `calculate_level(total_xp)` is the
greatest level `n ≥ 1` whose threshold is at most `total_xp`, and
`calculate_level` is monotone non-decreasing in total XP. -/
theorem c9_calculate_level_is_greatest (totalXp : Int) (h : 0 ≤ totalXp) :
    1 ≤ calculate_level totalXp ∧
    get_level_threshold (calculate_level totalXp) ≤ totalXp ∧
    (∀ m : Nat, get_level_threshold m ≤ totalXp → m ≤ calculate_level totalXp) ∧
    (∀ y : Int, totalXp ≤ y → calculate_level totalXp ≤ calculate_level y) := by
  have hc := calculate_level_charac totalXp h
  refine ⟨hc.1, hc.2.1, fun m hm => calculate_level_greatest totalXp h m hm, fun y hy => ?_⟩
  exact calculate_level_greatest y (le_trans h hy) _ (le_trans hc.2.1 hy)

/-- Witness for C9 at `total_xp = 300`. -/
theorem c9_witness :
    0 ≤ (300 : Int) ∧ 1 ≤ calculate_level 300 ∧
    get_level_threshold (calculate_level 300) ≤ 300 :=
  ⟨by norm_num, (c9_calculate_level_is_greatest 300 (by norm_num)).1,
    (c9_calculate_level_is_greatest 300 (by norm_num)).2.1⟩

/-- C10: for every `co2_saved_kg ≥ 0` and every category string,
`calculate_xp` returns between 10 and 50 inclusive. -/
theorem c10_calculate_xp_bounds (co2SavedKg : ℚ) (category : String)
    (h : 0 ≤ co2SavedKg) :
    10 ≤ calculate_xp co2SavedKg category ∧ calculate_xp co2SavedKg category ≤ 50 := by
  have h5 : (0 : ℚ) ≤ co2SavedKg * 5 := by positivity
  have htr : (0 : Int) ≤ pyTrunc (co2SavedKg * 5) := by
    rw [pyTrunc, if_pos h5]
    exact Int.le_floor.mpr (by exact_mod_cast h5)
  unfold calculate_xp
  have hmin : (0 : Int) ≤ min (pyTrunc (co2SavedKg * 5)) 40 := le_min htr (by norm_num)
  refine ⟨le_min ?_ (by norm_num), min_le_right _ _⟩
  split_ifs <;> omega

/-- Witness for C10 at `co2_saved_kg = 3`, `category = "food"` (and at an
unknown category). -/
theorem c10_witness :
    0 ≤ (3 : ℚ) ∧ 10 ≤ calculate_xp 3 "food" ∧ calculate_xp 3 "food" ≤ 50 ∧
    calculate_xp 3 "travel" ≤ 50 :=
  ⟨by norm_num, (c10_calculate_xp_bounds 3 "food" (by norm_num)).1,
    (c10_calculate_xp_bounds 3 "food" (by norm_num)).2,
    (c10_calculate_xp_bounds 3 "travel" (by norm_num)).2⟩

theorem pyRound2_nonneg {x : ℚ} (hx : 0 ≤ x) : 0 ≤ pyRound2 x := by
  have hf : (0 : Int) ≤ ⌊x * 100⌋ := Int.le_floor.mpr (by positivity)
  unfold pyRound2
  split_ifs <;>
    exact div_nonneg (by exact_mod_cast (by omega : (0 : Int) ≤ _)) (by norm_num)

theorem pyRound2_int_div (n : Int) : pyRound2 ((n : ℚ) / 100) = (n : ℚ) / 100 := by
  unfold pyRound2
  have h1 : (n : ℚ) / 100 * 100 = (n : ℚ) := by field_simp
  rw [h1, Int.floor_intCast]
  norm_num

theorem pyRound2_idem (x : ℚ) : pyRound2 (pyRound2 x) = pyRound2 x := by
  have h : ∃ n : Int, pyRound2 x = (n : ℚ) / 100 := by
    unfold pyRound2
    split_ifs <;> exact ⟨_, rfl⟩
  obtain ⟨n, hn⟩ := h
  rw [hn, pyRound2_int_div]

theorem _estimate_transport_co2_nonneg (m : String) {d : Int} (hd : 0 ≤ d) :
    0 ≤ _estimate_transport_co2 m d := by
  have hd2 : (0 : ℚ) ≤ (d : ℚ) := by exact_mod_cast hd
  unfold _estimate_transport_co2
  split_ifs <;> dsimp only [] <;> nlinarith

theorem _estimate_flight_co2_nonneg (fr : String) : 0 ≤ _estimate_flight_co2 fr := by
  unfold _estimate_flight_co2
  split_ifs <;> norm_num

theorem dietCo2Lookup_nonneg (dt : String) : 0 ≤ dietCo2Lookup dt := by
  unfold dietCo2Lookup
  split_ifs <;> norm_num

/-- C7 (amended): the fallback estimate is idempotent under 2-decimal
rounding for every survey, and is nonnegative whenever the reported commute
distance is nonnegative (a negative reported distance, which the survey
model accepts, makes it negative — see the counterexample). -/
theorem c7_estimate_nonneg_and_rounded (survey : Survey) :
    (0 ≤ survey.commute_distance.getD 0 → 0 ≤ _estimate_co2_footprint survey) ∧
    pyRound2 (_estimate_co2_footprint survey) = _estimate_co2_footprint survey := by
  constructor
  · intro hd
    unfold _estimate_co2_footprint
    apply pyRound2_nonneg
    have h1 : 0 ≤ (if truthy survey.commute_method then
        _estimate_transport_co2 (survey.commute_method.getD "")
          (survey.commute_distance.getD 0) else (0 : ℚ)) := by
      split_ifs
      · exact _estimate_transport_co2_nonneg _ hd
      · norm_num
    have h2 : 0 ≤ (if truthy survey.flight_frequency then
        _estimate_flight_co2 (survey.flight_frequency.getD "") else (0 : ℚ)) := by
      split_ifs
      · exact _estimate_flight_co2_nonneg _
      · norm_num
    have h3 : 0 ≤ (if truthy survey.diet_type then
        dietCo2Lookup (survey.diet_type.getD "") else (0 : ℚ)) := by
      split_ifs
      · exact dietCo2Lookup_nonneg _
      · norm_num
    exact add_nonneg (add_nonneg h1 h2) h3
  · unfold _estimate_co2_footprint
    exact pyRound2_idem _

/-- Witness for C7 at the end-to-end scenario survey (distance 15). -/
theorem c7_witness :
    0 ≤ surveyC6.commute_distance.getD 0 ∧ 0 ≤ _estimate_co2_footprint surveyC6 :=
  ⟨by norm_num [surveyC6], (c7_estimate_nonneg_and_rounded surveyC6).1 (by norm_num [surveyC6])⟩

/-- C7 counterexample: a survey reporting commute distance -1 while driving
alone makes the all-fallback estimate negative, refuting "never negative
for every survey, including any reported commute_distance". -/
theorem c7_counterexample : _estimate_co2_footprint surveyNegDistance < 0 := by
  have h : _estimate_co2_footprint surveyNegDistance = -404 / 25 := by
    simp [_estimate_co2_footprint, surveyNegDistance, truthy, _estimate_transport_co2,
      _estimate_flight_co2, dietCo2Lookup, pyRound2]
    norm_num [Int.fract]
  rw [h]
  norm_num

set_option maxRecDepth 8000 in
/-- C6: for the end-to-end scenario survey with both external services
failing, the pipeline produces `baselineCo2Kg = 0.404*15*2*20 + 250 =
492.4`, the 3-item static fallback mission set, and a non-null error. -/
theorem c6_end_to_end :
    (run_pipeline_fallback (initialState "user-1" surveyC6)
        (GenResponse.parseFail "service unavailable")).baseline_co2_kg = 492.4 ∧
    (run_pipeline_fallback (initialState "user-1" surveyC6)
        (GenResponse.parseFail "service unavailable")).missions =
      _generate_fallback_missions (initialState "user-1" surveyC6) ∧
    (run_pipeline_fallback (initialState "user-1" surveyC6)
        (GenResponse.parseFail "service unavailable")).error ≠ none := by
  refine ⟨?_, rfl, ?_⟩
  · simp only [run_pipeline_fallback]
    simp only [generate_missions]
    simp only [identify_opportunities]
    simp only [classify_user_profile]
    simp only [calculate_co2_footprint_fallback]
    simp only [initialState]
    simp [surveyC6, _estimate_co2_footprint, truthy, _estimate_transport_co2,
      _estimate_flight_co2, dietCo2Lookup]
    norm_num [pyRound2, Int.fract]
  · simp [run_pipeline_fallback, generate_missions]

/-- C4: a parse failure, a non-list payload, or fewer than 8 parsed
missions each make `generate_missions` record a non-null error and
substitute the fixed 3-mission fallback set (water bottle, unplug devices,
meatless meal), so the stage always ends with a non-empty mission list. -/
theorem c4_generation_failure_isolated (st : WorkflowState) (msg : String)
    (ms : List Mission) :
    ((generate_missions st (GenResponse.parseFail msg)).error ≠ none ∧
      (generate_missions st (GenResponse.parseFail msg)).missions =
        _generate_fallback_missions st) ∧
    ((generate_missions st GenResponse.notAList).error ≠ none ∧
      (generate_missions st GenResponse.notAList).missions =
        _generate_fallback_missions st) ∧
    (ms.length < 8 →
      (generate_missions st (GenResponse.missionList ms)).error ≠ none ∧
      (generate_missions st (GenResponse.missionList ms)).missions =
        _generate_fallback_missions st) ∧
    (_generate_fallback_missions st).map Mission.title =
      ["Use a reusable water bottle today", "Unplug devices before bed tonight",
        "Try one meatless meal this week"] ∧
    (_generate_fallback_missions st).length = 3 := by
  refine ⟨⟨by simp [generate_missions], by simp [generate_missions]⟩,
    ⟨by simp [generate_missions], by simp [generate_missions]⟩, ?_,
    by simp [_generate_fallback_missions], by simp [_generate_fallback_missions]⟩
  intro h
  constructor <;> simp [generate_missions, if_pos h]

/-- Witness for C4 at the empty parsed list. -/
theorem c4_witness :
    (([] : List Mission).length < 8) ∧
    (generate_missions stateWithAreas (GenResponse.missionList [])).missions =
      _generate_fallback_missions stateWithAreas :=
  ⟨by norm_num,
    ((c4_generation_failure_isolated stateWithAreas "x" []).2.2.1 (by norm_num)).2⟩

theorem classifyScores_spec (b i e : Nat) :
    (classifyScores b i e = "EXPERT" ↔ max b (max i e) = e) ∧
    (classifyScores b i e = "INTERMEDIATE" ↔
      (max b (max i e) ≠ e ∧ max b (max i e) = i)) ∧
    (classifyScores b i e = "BEGINNER" ↔
      (max b (max i e) ≠ e ∧ max b (max i e) ≠ i)) := by
  unfold classifyScores
  dsimp only
  split_ifs with h1 h2 <;> simp_all

/-- C2: the classifier returns exactly one of the three profiles by the
rule EXPERT iff the expert accumulator equals the maximum, else
INTERMEDIATE iff the intermediate accumulator equals the maximum, else
BEGINNER; in particular all-equal accumulators give EXPERT and equal
beginner/intermediate with a strictly lower expert give INTERMEDIATE. -/
theorem c2_classifier_tie_break (st : WorkflowState) (n k : Nat) :
    (let b := (profileScores st.survey_data).1
     let i := (profileScores st.survey_data).2.1
     let e := (profileScores st.survey_data).2.2
     let p := (classify_user_profile st).profile_type
     (p = "EXPERT" ∨ p = "INTERMEDIATE" ∨ p = "BEGINNER") ∧
     (p = "EXPERT" ↔ max b (max i e) = e) ∧
     (p = "INTERMEDIATE" ↔ (max b (max i e) ≠ e ∧ max b (max i e) = i)) ∧
     (p = "BEGINNER" ↔ (max b (max i e) ≠ e ∧ max b (max i e) ≠ i))) ∧
    classifyScores n n n = "EXPERT" ∧
    classifyScores (n + k + 1) (n + k + 1) n = "INTERMEDIATE" := by
  refine ⟨?_, ?_, ?_⟩
  · have hs := classifyScores_spec (profileScores st.survey_data).1
      (profileScores st.survey_data).2.1 (profileScores st.survey_data).2.2
    have hp : (classify_user_profile st).profile_type =
        classifyScores (profileScores st.survey_data).1
          (profileScores st.survey_data).2.1 (profileScores st.survey_data).2.2 := rfl
    refine ⟨?_, hp ▸ hs.1, hp ▸ hs.2.1, hp ▸ hs.2.2⟩
    rw [hp]
    unfold classifyScores
    dsimp only
    split_ifs <;> simp
  · unfold classifyScores
    simp
  · unfold classifyScores
    dsimp only
    have h1 : max (n + k + 1) (max (n + k + 1) n) = n + k + 1 := by omega
    rw [h1]
    have h2 : ¬(n + k + 1 = n) := by omega
    simp [h2]

theorem validateMission_ok_fields {areas : List String}
    (h : ∀ a ∈ areas, a ∈ validCategories) {m m1 : Mission}
    (hv : validateMission areas m = Except.ok m1) :
    m1.category ∈ validCategories ∧ m1.mission_type ∈ validMissionTypes := by
  unfold validateMission at hv
  by_cases ht : m.mission_type ∈ validMissionTypes
  · rw [if_pos ht] at hv
    by_cases hc : m.category ∈ validCategories
    · rw [if_pos hc] at hv
      injection hv with hv1
      subst hv1
      exact ⟨hc, ht⟩
    · rw [if_neg hc] at hv
      cases areas with
      | nil => simp at hv
      | cons a rest =>
        injection hv with hv1
        subst hv1
        exact ⟨h a (by simp), ht⟩
  · rw [if_neg ht] at hv
    by_cases hc : m.category ∈ validCategories
    · rw [if_pos (show ({ m with mission_type := "one_time" } : Mission).category ∈
          validCategories from hc)] at hv
      injection hv with hv1
      subst hv1
      exact ⟨hc, by simp [validMissionTypes]⟩
    · rw [if_neg (show ¬({ m with mission_type := "one_time" } : Mission).category ∈
          validCategories from hc)] at hv
      cases areas with
      | nil => simp at hv
      | cons a rest =>
        injection hv with hv1
        subst hv1
        exact ⟨h a (by simp), by simp [validMissionTypes]⟩

theorem validateMissions_ok_fields {areas : List String}
    (h : ∀ a ∈ areas, a ∈ validCategories) :
    ∀ {ms out : List Mission}, validateMissions areas ms = Except.ok out →
      ∀ m ∈ out, m.category ∈ validCategories ∧ m.mission_type ∈ validMissionTypes := by
  intro ms
  induction ms with
  | nil =>
    intro out hv m hm
    unfold validateMissions at hv
    injection hv with hv1
    subst hv1
    simp at hm
  | cons x rest ih =>
    intro out hv m hm
    unfold validateMissions at hv
    cases hx : validateMission areas x with
    | error err => rw [hx] at hv; simp at hv
    | ok x1 =>
      rw [hx] at hv
      cases hr : validateMissions areas rest with
      | error err => rw [hr] at hv; simp at hv
      | ok rest1 =>
        rw [hr] at hv
        injection hv with hv1
        subst hv1
        rcases List.mem_cons.mp hm with hm1 | hm1
        · subst hm1
          exact validateMission_ok_fields h hx
        · exact ih hr m hm1

theorem fallback_missions_schemaOk (st : WorkflowState) :
    ∀ m ∈ _generate_fallback_missions st, missionSchemaOk m := by
  intro m hm
  simp only [_generate_fallback_missions, List.mem_cons, List.not_mem_nil, or_false] at hm
  rcases hm with rfl | rfl | rfl <;>
    norm_num [missionSchemaOk, validCategories, validMissionTypes]

/-- C1 (amended): on both paths every output mission has `category` and
`missionType` from their enumerations (given valid opportunity areas, as a
real run produces), and the static fallback missions satisfy the full
Mission schema; but the generation-and-repair path checks only those two
fields, so `co2SavedKg`, `xpReward` and `tips` of a parsed mission are not
validated (see the counterexample). -/
theorem c1_mission_enum_fields (st : WorkflowState) (response : GenResponse)
    (h : ∀ a ∈ st.opportunity_areas, a ∈ validCategories) :
    (∀ m ∈ (generate_missions st response).missions,
      m.category ∈ validCategories ∧ m.mission_type ∈ validMissionTypes) ∧
    (∀ m ∈ _generate_fallback_missions st, missionSchemaOk m) := by
  have hfb : ∀ m ∈ _generate_fallback_missions st,
      m.category ∈ validCategories ∧ m.mission_type ∈ validMissionTypes :=
    fun m hm => ⟨(fallback_missions_schemaOk st m hm).1,
      (fallback_missions_schemaOk st m hm).2.1⟩
  refine ⟨?_, fallback_missions_schemaOk st⟩
  cases response with
  | parseFail msg =>
    intro m hm
    simp only [generate_missions] at hm
    exact hfb m hm
  | notAList =>
    intro m hm
    simp only [generate_missions] at hm
    exact hfb m hm
  | missionList ms =>
    by_cases hlen : ms.length < 8
    · intro m hm
      simp only [generate_missions, if_pos hlen] at hm
      exact hfb m hm
    · cases hv : validateMissions st.opportunity_areas ms with
      | ok out =>
        intro m hm
        simp only [generate_missions, if_neg hlen, hv] at hm
        exact validateMissions_ok_fields h hv m hm
      | error msg =>
        intro m hm
        simp only [generate_missions, if_neg hlen, hv] at hm
        exact hfb m hm

/-- Witness for C1 at a state with the valid area list `["energy"]` and a
failing generation call. -/
theorem c1_witness :
    (∀ a ∈ stateWithAreas.opportunity_areas, a ∈ validCategories) ∧
    (∀ m ∈ (generate_missions stateWithAreas (GenResponse.parseFail "x")).missions,
      m.category ∈ validCategories ∧ m.mission_type ∈ validMissionTypes) :=
  ⟨by simp [stateWithAreas, initialState, validCategories],
    (c1_mission_enum_fields stateWithAreas (GenResponse.parseFail "x")
      (by simp [stateWithAreas, initialState, validCategories])).1⟩

/-- C1 counterexample: a successfully parsed list of 8 missions containing
one with `xp_reward = 500` (valid category and mission type) is kept
unchanged, so the final output contains a mission violating the schema
`xpReward` range 0-100. -/
theorem c1_counterexample :
    (generate_missions stateWithAreas (GenResponse.missionList missionsWithBadXp)).missions =
      missionsWithBadXp ∧
    badXpMission ∈ missionsWithBadXp ∧ ¬missionSchemaOk badXpMission := by
  refine ⟨?_, by simp [missionsWithBadXp], ?_⟩
  · simp [generate_missions, stateWithAreas, initialState, missionsWithBadXp,
      validateMissions, validateMission, badXpMission, okMission,
      validMissionTypes, validCategories, List.replicate]
  · intro hok
    have := hok.2.2.2.2.1
    norm_num [badXpMission, okMission] at this

/-- C5: at the failing input (empty opportunity areas, one parsed mission
with category "travel") the indexing in the logging line raises
and the stage substitutes the static fallback set instead of repairing the
category to "energy"; with a nonempty area list the claimed repairs do
happen: "monthly" becomes "one_time", "travel" becomes the first
opportunity area, the record is kept and nothing else changes. -/
theorem c5_empty_areas_crash :
    validateMission [] travelMission = Except.error "list index out of range" ∧
    (generate_missions stateNoAreas (GenResponse.missionList missionsWithTravel)).missions =
      _generate_fallback_missions stateNoAreas ∧
    (generate_missions stateNoAreas (GenResponse.missionList missionsWithTravel)).error =
      some "list index out of range" ∧
    validateMission ["transportation"] travelMission =
      Except.ok { travelMission with category := "transportation" } ∧
    validateMission ["transportation"] { okMission with mission_type := "monthly" } =
      Except.ok { okMission with mission_type := "one_time" } := by
  refine ⟨?_, ?_, ?_, ?_, ?_⟩ <;>
    simp [generate_missions, stateNoAreas, initialState, missionsWithTravel,
      validateMissions, validateMission, travelMission, okMission,
      validMissionTypes, validCategories, List.replicate]

theorem transportScore_lt (survey : Survey) : transportScore survey < 8 := by
  unfold transportScore
  split_ifs <;> norm_num

theorem foodScore_lt (survey : Survey) : foodScore survey < 7 := by
  unfold foodScore
  split_ifs <;> norm_num

theorem shoppingScore_lt (survey : Survey) : shoppingScore survey < 6 := by
  unfold shoppingScore
  split_ifs <;> norm_num

theorem energyScore_lt (survey : Survey) : energyScore survey < 6 := by
  unfold energyScore
  split_ifs <;> norm_num

set_option maxHeartbeats 4000000 in
theorem rankerOk_all : ∀ t < 8, ∀ f < 7, ∀ s < 6, ∀ e < 6, rankerOk t f s e := by decide

/-- C3: for every survey, the opportunity list has 1-3 distinct tags from
the four domains, ordered by descending score with ties in the fixed input
order; it is exactly [transportation, food, energy] when all four scores
are zero, and otherwise consists precisely of the positive-scoring domains
beaten by at most two others (the top 3 by score). -/
theorem c3_opportunity_ranker_spec (st : WorkflowState) :
    (let r := (identify_opportunities st).opportunity_areas
     let sc := scoreOfTag st.survey_data
     (1 ≤ r.length ∧ r.length ≤ 3) ∧
     r.Nodup ∧
     (∀ x ∈ r, x ∈ rankerDomains) ∧
     r.Pairwise (fun a b => sc b < sc a ∨ (sc a = sc b ∧ domIdx a < domIdx b)) ∧
     ((transportScore st.survey_data = 0 ∧ foodScore st.survey_data = 0 ∧
       shoppingScore st.survey_data = 0 ∧ energyScore st.survey_data = 0) →
       r = ["transportation", "food", "energy"]) ∧
     (¬(transportScore st.survey_data = 0 ∧ foodScore st.survey_data = 0 ∧
        shoppingScore st.survey_data = 0 ∧ energyScore st.survey_data = 0) →
       ∀ d ∈ rankerDomains,
         (d ∈ r ↔ 0 < sc d ∧
           (rankerDomains.filter (fun y => rankBeats sc y d)).length ≤ 2))) := by
  have hb := rankerOk_all (transportScore st.survey_data) (transportScore_lt st.survey_data)
    (foodScore st.survey_data) (foodScore_lt st.survey_data)
    (shoppingScore st.survey_data) (shoppingScore_lt st.survey_data)
    (energyScore st.survey_data) (energyScore_lt st.survey_data)
  unfold rankerOk at hb
  exact hb

/-- Witness for C3 at the entirely blank survey (all domain scores zero):
the default list comes back. -/
theorem c3_witness :
    (identify_opportunities (initialState "user-1" surveyBlank)).opportunity_areas =
      ["transportation", "food", "energy"] :=
  (c3_opportunity_ranker_spec (initialState "user-1" surveyBlank)).2.2.2.2.1
    (by refine ⟨?_, ?_, ?_, ?_⟩ <;> decide)

/-- Witness for C2: equal accumulators (2,2,2) give EXPERT; accumulators
(3,3,2) give INTERMEDIATE. -/
theorem c2_witness :
    classifyScores 2 2 2 = "EXPERT" ∧ classifyScores 3 3 2 = "INTERMEDIATE" :=
  ⟨(c2_classifier_tie_break (initialState "user-1" surveyBlank) 2 0).2.1,
    (c2_classifier_tie_break (initialState "user-1" surveyBlank) 2 0).2.2⟩
